import Mathlib

/-!
Shallow embedding of `src/maoer_csv.py` (the maoer paid-episode statistics
pipeline) and proofs about it.

Modelling conventions:
* Python exceptions are values of `PyErr`; a function that can raise returns
  `Except PyErr _`.  `requests.RequestException` (which, with the `requests`
  library in use, also covers `response.raise_for_status()` errors and the
  `requests.exceptions.JSONDecodeError` raised by `response.json()`) is
  `PyErr.transport`/`PyErr.parse`; `KeyError`, `ValueError`, `TypeError`,
  `IndexError` from dict/`int()`/list accesses are the remaining constructors.
* A JSON object field that may be missing is an `Option`; `none` models a
  missing key anywhere along the accessed path.
* Python `datetime` values produced by `datetime.datetime.fromtimestamp` are
  modelled by their epoch-second argument (an `Int`); `fromtimestamp` is
  strictly monotone, so comparisons between the datetimes coincide with
  comparisons between the epoch values.
* The network is an oracle (`Net`): a function from request parameters to the
  response (or the exception the `requests` call raises).
* The nondeterministic completion order of `as_completed` over the per-episode
  futures is a parameter: a reordering function applied to the submitted list,
  assumed in the theorems to produce a permutation.
* The unbounded `while True` pagination loop of `fetch_all_uids_by_comments`
  is embedded with fuel; the outermost `Option` is `none` when the loop does
  not terminate within the given fuel.
* CSV writers are modelled by returning the written rows as data.
-/

namespace MaoerCsv

/-- Python exception kinds relevant to `maoer_csv.py`. -/
inductive PyErr where
  | transport
  | parse
  | keyError
  | valueError
  | indexError
  | typeError
deriving DecidableEq

/-- A Python scalar as it ends up in a CSV cell: `None`, a string, or an int.
Used for the drama-level fields, whose failure default is `''` while their
success value comes from `dict.get` (possibly `None`). -/
inductive PyVal where
  | vNone
  | vStr (s : String)
  | vInt (n : Int)
deriving DecidableEq

/-- Lift `drama.get(...)` on a string-valued field to a `PyVal`. -/
def pvStr : Option String → PyVal
  | none => .vNone
  | some s => .vStr s

/-- Lift `drama.get(...)` on an int-valued field to a `PyVal`. -/
def pvInt : Option Int → PyVal
  | none => .vNone
  | some n => .vInt n

/-- One entry of `info.episodes.episode` in the `getdrama` JSON.
`none` fields model missing keys. -/
structure EpisodeJson where
  sound_id : Option Int
  soundstr : Option String
  need_pay : Option Int
deriving DecidableEq

/-- The parsed `info` object of a `getdrama` response. -/
structure DramaPayload where
  name : Option String
  price : Option Int
  view_count : Option Int
  catalog_name : Option String
  episodes : List EpisodeJson
deriving DecidableEq

/-- The dict built for each episode by `get_drama_sound_lists`. -/
structure SoundItem where
  sound_id : Int
  sound_title : String
  need_pay : Int
deriving DecidableEq

/-- The parsed `info.sound` object of a `getsound` response. -/
structure SoundJson where
  view_count : Option Int
  view_count_formatted : Option String
  comment_count : Option Int
  favorite_count : Option Int
  username : Option String
  create_time : Option Int
deriving DecidableEq

/-- The dict returned by `get_sound_detail` on success.  `create_time` is
always present (the source defaults the timestamp argument to `0`); the
other fields are `sound.get(...)` results and may be `None`. -/
structure DetailFields where
  view_count : Option Int
  view_count_formatted : Option String
  comment_count : Option Int
  favorite_count : Option Int
  username : Option String
  create_time : Int
deriving DecidableEq

/-- One entry of `info.comment.Datas` in a `getcomment` page: its `userid`
and the `userid`s of its `subcomments`.  `none` models a missing key; a
subcomment is just its (possibly missing) `userid`. -/
structure PyComment where
  userid : Option Int
  subcomments : Option (List (Option Int))
deriving DecidableEq

/-- The parsed body of one `getcomment` page.  `datas` is
`info.comment.Datas` and `hasMore` is `info.comment.hasMore`; `none` models
a missing key along the path. -/
structure CommentPayload where
  datas : Option (List PyComment)
  hasMore : Option Bool
deriving DecidableEq

/-- The network oracle: responses (or raised transport/parse errors) for the
three per-sound endpoints.  `dm` returns the list of `p` attributes of the
`<d>` elements of the danmaku XML; `comment` maps a page number to that
page's response. -/
structure Net where
  sound : Int → Except PyErr SoundJson
  dm : Int → Except PyErr (List String)
  comment : Int → Nat → Except PyErr CommentPayload

/-- `get_drama_sound_lists` (src lines 14-32): on a `requests.RequestException`
(transport error, bad HTTP status, or the JSON decode error raised by
`response.json()`) it absorbs the failure and returns
`[], '', '', '', ''`; on success it builds the sound list, where
`episode["sound_id"]` / `episode["soundstr"]` raise `KeyError` when missing
and `episode.get("need_pay", 0)` defaults to `0`. -/
def get_drama_sound_lists (resp : Except PyErr DramaPayload) :
    Except PyErr (List SoundItem × PyVal × PyVal × PyVal × PyVal) :=
  match resp with
  | .error _ => .ok ([], .vStr "", .vStr "", .vStr "", .vStr "")
  | .ok data =>
    match data.episodes.mapM (fun e =>
        match e.sound_id, e.soundstr with
        | some sid, some title => Except.ok (⟨sid, title, e.need_pay.getD 0⟩ : SoundItem)
        | _, _ => Except.error PyErr.keyError) with
    | .error e => .error e
    | .ok sound_lists =>
      .ok (sound_lists, pvStr data.name, pvInt data.price, pvInt data.view_count,
        pvStr data.catalog_name)

/-- `get_sound_detail` (src lines 35-53): absorbs any `RequestException`
into the empty dict (modelled `none`); on success builds the detail dict,
with `create_time = fromtimestamp(sound.get('create_time', 0))`. -/
def get_sound_detail (resp : Except PyErr SoundJson) : Option DetailFields :=
  match resp with
  | .error _ => none
  | .ok sound =>
    some ⟨sound.view_count, sound.view_count_formatted, sound.comment_count,
      sound.favorite_count, sound.username, sound.create_time.getD 0⟩

/-- `s.split(",")` on one `p` attribute, character by character: the
accumulator holds the current field's characters in reverse. -/
def splitCommaAux : List Char → List Char → List String
  | [], acc => [String.mk acc.reverse]
  | ch :: rest, acc =>
    if ch = ',' then String.mk acc.reverse :: splitCommaAux rest []
    else splitCommaAux rest (ch :: acc)

/-- Python `"...".split(",")`: split on every comma; always at least one
(possibly empty) field. -/
def splitComma (s : String) : List String :=
  splitCommaAux s.data []

/-- The numeric value of a decimal digit character. -/
def digitVal (ch : Char) : Option Nat :=
  if ch.isDigit then some (ch.toNat - 48) else none

/-- Parse a nonempty all-digit character list as a natural number. -/
def natOfChars : List Char → Option Nat
  | [] => none
  | [ch] => digitVal ch
  | ch :: rest =>
    match digitVal ch, natOfChars rest with
    | some d, some n => some (d * 10 ^ rest.length + n)
    | _, _ => none

/-- Python `int(s)` on the identifier fields: an optional leading minus
sign followed by decimal digits; anything else raises `ValueError`
(modelled as `none`). -/
def pyInt (s : String) : Option Int :=
  match s.data with
  | '-' :: rest => (natOfChars rest).map (fun n => -(n : Int))
  | l => (natOfChars l).map (fun n => (n : Int))

/-- One step of the set comprehension in `fetch_all_danmakus` (src lines
62-63): split the `p` attribute on commas, test field index 1 against
`"4"`, and on pass convert field index 6 with `int(...)`.  Out-of-range
indexing raises `IndexError`, a non-numeric field raises `ValueError`. -/
def danmakuStep (acc : Finset Int) (p : String) : Except PyErr (Finset Int) :=
  let fields := splitComma p
  match fields[1]? with
  | none => .error .indexError
  | some f1 =>
    if f1 ≠ "4" then
      match fields[6]? with
      | none => .error .indexError
      | some f6 =>
        match pyInt f6 with
        | none => .error .valueError
        | some n => .ok (insert n acc)
    else .ok acc

/-- The whole set comprehension of `fetch_all_danmakus` over the `<d>`
elements, threading the first raised error. -/
def danmakuSet : List String → Finset Int → Except PyErr (Finset Int)
  | [], acc => .ok acc
  | p :: rest, acc =>
    match danmakuStep acc p with
    | .error e => .error e
    | .ok acc2 => danmakuSet rest acc2

/-- `fetch_all_danmakus` (src lines 56-66): a `RequestException` or an XML
`ParseError` is absorbed into the empty set; errors raised inside the set
comprehension (`IndexError`, `ValueError`) are not caught and propagate. -/
def fetch_all_danmakus (resp : Except PyErr (List String)) : Except PyErr (Finset Int) :=
  match resp with
  | .error _ => .ok ∅
  | .ok items => danmakuSet items ∅

/-- The `comment["userid"]` lookup: `KeyError` when the key is missing. -/
def commentUid (c : PyComment) : Except PyErr Int :=
  match c.userid with
  | none => .error .keyError
  | some u => .ok u

/-- The `sub["userid"]` lookup on one subcomment. -/
def subUid (s : Option Int) : Except PyErr Int :=
  match s with
  | none => .error .keyError
  | some u => .ok u

/-- The `comment["subcomments"]` traversal: `KeyError` when the key is
missing, then each subcomment's `userid`. -/
def commentSubUids (c : PyComment) : Except PyErr (List Int) :=
  match c.subcomments with
  | none => .error .keyError
  | some subs => subs.mapM subUid

/-- `extract_user_ids` (src lines 69-73): collect `int(comment["userid"])`
for every entry of `data["info"]["comment"]["Datas"]` and
`int(sub["userid"])` for every entry of each comment's `subcomments`.
Any missing key raises `KeyError`. -/
def extract_user_ids (data : CommentPayload) : Except PyErr (Finset Int) :=
  match data.datas with
  | none => .error .keyError
  | some datas =>
    match datas.mapM commentUid with
    | .error e => .error e
    | .ok tops =>
      match datas.mapM commentSubUids with
      | .error e => .error e
      | .ok subLists => .ok (tops.toFinset ∪ subLists.flatten.toFinset)

/-- The `while True` pagination loop of `fetch_all_uids_by_comments` (src
lines 81-89), with fuel.  `pages` is the server's response per page number;
`page` is the next page to request, `acc` the identifiers collected so far
and `cnt` the number of page requests issued so far (request-count
instrumentation; the source only keeps the set).  A transport error or an
`extract_user_ids` failure propagates; a missing `hasMore` key raises
`KeyError`.  Returns `none` when the fuel runs out before the loop breaks. -/
def fetchUidsGo (pages : Nat → Except PyErr CommentPayload) :
    Nat → Nat → Finset Int → Nat → Option (Except PyErr (Finset Int × Nat))
  | 0, _, _, _ => none
  | fuel + 1, page, acc, cnt =>
    match pages page with
    | .error e => some (.error e)
    | .ok data =>
      match extract_user_ids data with
      | .error e => some (.error e)
      | .ok uids =>
        match data.hasMore with
        | none => some (.error .keyError)
        | some true => fetchUidsGo pages fuel (page + 1) (acc ∪ uids) (cnt + 1)
        | some false => some (.ok (acc ∪ uids, cnt + 1))

/-- `fetch_all_uids_by_comments` (src lines 76-91): paginate from page 1
with an empty accumulator.  The `Nat` component counts the page requests
issued. -/
def fetch_all_uids_by_comments (pages : Nat → Except PyErr CommentPayload) (fuel : Nat) :
    Option (Except PyErr (Finset Int × Nat)) :=
  fetchUidsGo pages fuel 1 ∅ 0

/-- The dict returned by `process_sound`: the original item's fields, the
detail dict layered in (`none` when `get_sound_detail` returned `{}`, in
which case the `view_count`/`create_time`/... keys are absent), and the
three identifier sets. -/
structure SoundRecord where
  sound_id : Int
  sound_title : String
  need_pay : Int
  detail : Option DetailFields
  danmaku_uids : Finset Int
  comment_uids : Finset Int
  total_sound_uids : Finset Int
deriving DecidableEq

instance : Inhabited SoundRecord :=
  ⟨⟨0, "", 0, none, ∅, ∅, ∅⟩⟩

/-- `process_sound` (src lines 98-113): fetch detail (failure absorbed),
danmaku identifiers (uncaught comprehension errors propagate) and threaded
comment identifiers (any failure propagates), then merge into one record
whose `total_sound_uids` is the union of the two sets. -/
def process_sound (net : Net) (fuel : Nat) (sound : SoundItem) :
    Option (Except PyErr SoundRecord) :=
  let sound_id := sound.sound_id
  let sound_detail := get_sound_detail (net.sound sound_id)
  match fetch_all_danmakus (net.dm sound_id) with
  | .error e => some (.error e)
  | .ok danmaku_uids =>
    match fetch_all_uids_by_comments (net.comment sound_id) fuel with
    | none => none
    | some (.error e) => some (.error e)
    | some (.ok (comment_uids, _)) =>
      some (.ok ⟨sound_id, sound.sound_title, sound.need_pay, sound_detail,
        danmaku_uids, comment_uids, danmaku_uids ∪ comment_uids⟩)

/-- The accumulator state of the `as_completed` loop in `process_drama_id`
(src lines 119-152). -/
structure AggState where
  sound_data : List SoundRecord
  total_paid_udis : Finset Int
  total_free_udis : Finset Int
  total_paid_danmaku_udis : Finset Int
  total_paid_comment_uids : Finset Int
  total_free_danmaku_udis : Finset Int
  total_free_comment_uids : Finset Int
  paid_view_count : Int
  free_view_count : Int
  first_sound_create_time : Option Int
deriving DecidableEq

/-- The initial accumulator state (src lines 119-130). -/
def initAgg : AggState :=
  ⟨[], ∅, ∅, ∅, ∅, ∅, ∅, 0, 0, none⟩

/-- One iteration of the `as_completed` loop (src lines 135-152) for the
completed `sound`.  `future.result()` re-raises anything `process_sound`
raised; `sound_detail['create_time']` (lines 137-138) raises `KeyError`
when the detail fetch failed; `int(sound_detail['view_count'])` raises
`TypeError` when the detail dict holds `None` there.  The
`if sound_detail:` test on line 139 is always true (the dict always holds
the keys set by `process_sound`), so it is not modelled as a branch. -/
def aggStep (net : Net) (fuel : Nat) (st : AggState) (sound : SoundItem) :
    Option (Except PyErr AggState) :=
  match process_sound net fuel sound with
  | none => none
  | some (.error e) => some (.error e)
  | some (.ok r) =>
    match r.detail with
    | none => some (.error .keyError)
    | some d =>
      let first := match st.first_sound_create_time with
        | none => some d.create_time
        | some m => if d.create_time < m then some d.create_time else some m
      if sound.need_pay > 0 then
        match d.view_count with
        | none => some (.error .typeError)
        | some v =>
          some (.ok { st with
            sound_data := st.sound_data ++ [r],
            total_paid_udis := st.total_paid_udis ∪ r.total_sound_uids,
            total_paid_danmaku_udis := st.total_paid_danmaku_udis ∪ r.danmaku_uids,
            total_paid_comment_uids := st.total_paid_comment_uids ∪ r.comment_uids,
            paid_view_count := st.paid_view_count + v,
            first_sound_create_time := first })
      else
        match d.view_count with
        | none => some (.error .typeError)
        | some v =>
          some (.ok { st with
            sound_data := st.sound_data ++ [r],
            total_free_udis := st.total_free_udis ∪ r.total_sound_uids,
            total_free_danmaku_udis := st.total_free_danmaku_udis ∪ r.danmaku_uids,
            total_free_comment_uids := st.total_free_comment_uids ∪ r.comment_uids,
            free_view_count := st.free_view_count + v,
            first_sound_create_time := first })

/-- The whole `as_completed` loop, consuming the completed episodes in
completion order; the first raised exception aborts the loop. -/
def aggLoop (net : Net) (fuel : Nat) : List SoundItem → AggState → Option (Except PyErr AggState)
  | [], st => some (.ok st)
  | s :: rest, st =>
    match aggStep net fuel st s with
    | none => none
    | some (.error e) => some (.error e)
    | some (.ok st2) => aggLoop net fuel rest st2

/-- One row of `sound_data.csv` (src lines 158-162). -/
structure SoundRow where
  sound_title : String
  create_time : Int
  need_pay : Int
  danmaku_size : Nat
  comment_size : Nat
  total_size : Nat
deriving DecidableEq

/-- One row of `drama_data.csv` (src lines 164-168). -/
structure DramaRow where
  drama_id : String
  name : PyVal
  first_sound_create_time : Option Int
  price : PyVal
  view_count : PyVal
  paid_view_count : Int
  free_view_count : Int
  paid_danmaku_size : Nat
  paid_comment_size : Nat
  free_danmaku_size : Nat
  free_comment_size : Nat
  paid_total_size : Nat
  free_total_size : Nat
deriving DecidableEq

/-- The `sound_detail['create_time']` lookup used when writing a sound row
(src line 159).  At that point the aggregation loop has already raised on
any record lacking the key, so the `none` branch is unreachable there. -/
def ctOf (r : SoundRecord) : Int :=
  match r.detail with
  | some d => d.create_time
  | none => 0

/-- Build one `sound_data.csv` row from a record (src lines 158-162). -/
def rowOf (r : SoundRecord) : SoundRow :=
  ⟨r.sound_title, ctOf r, r.need_pay, r.danmaku_uids.card, r.comment_uids.card,
    r.total_sound_uids.card⟩

/-- The sort key comparison of `sound_data.sort(key=lambda x: x['sound_id'])`
(src line 155). -/
def recLe (a b : SoundRecord) : Prop :=
  a.sound_id ≤ b.sound_id

instance : DecidableRel recLe := fun a b => by
  unfold recLe; infer_instance

instance : IsTotal SoundRecord recLe :=
  ⟨fun a b => le_total a.sound_id b.sound_id⟩

instance : IsTrans SoundRecord recLe :=
  ⟨fun _ _ _ h1 h2 => le_trans h1 h2⟩

/-- The strict version of the sort-key comparison: strictly ascending
sound id. -/
def recLt (a b : SoundRecord) : Prop :=
  a.sound_id < b.sound_id

instance : IsAntisymm SoundRecord recLt :=
  ⟨fun _ _ h h2 => absurd h2 (lt_asymm h)⟩

/-- `sound_data.sort(key=lambda x: x['sound_id'])` (src line 155): Python's
sort is a stable sort by the key, and a stable sort is a unique function of
its comparison, so any stable algorithm is an extensionally equal embedding;
we use stable insertion sort. -/
def sortSounds (l : List SoundRecord) : List SoundRecord :=
  l.insertionSort recLe

/-- Everything observable `process_drama_id` produces: the rows written to
the two CSV writers and its return value `(sound_data, total_paid_udis)`. -/
structure DramaOutput where
  soundRows : List SoundRow
  dramaRow : DramaRow
  sound_data : List SoundRecord
  total_paid_udis : Finset Int
deriving DecidableEq

/-- The emission phase of `process_drama_id` (src lines 154-170): sort the
collected records by sound id, write one row per record and the single
drama summary row, and return `(sound_data, total_paid_udis)`. -/
def emitOutput (drama_id : String) (name price view_count : PyVal) (st : AggState) :
    DramaOutput :=
  let sorted := sortSounds st.sound_data
  ⟨sorted.map rowOf,
    ⟨drama_id, name, st.first_sound_create_time, price, view_count,
      st.paid_view_count, st.free_view_count,
      st.total_paid_danmaku_udis.card, st.total_paid_comment_uids.card,
      st.total_free_danmaku_udis.card, st.total_free_comment_uids.card,
      st.total_paid_udis.card, st.total_free_udis.card⟩,
    sorted, st.total_paid_udis⟩

/-- `process_drama_id` (src lines 116-170).  `resp` is the `getdrama`
response, `reorder` the completion order of `as_completed` (a permutation
of the submitted episode list in the intended executions), `fuel` bounds
the pagination loops.  When the episode list is empty the executor block
is skipped (src line 132). -/
def process_drama_id (drama_id : String) (net : Net) (resp : Except PyErr DramaPayload)
    (reorder : List SoundItem → List SoundItem) (fuel : Nat) :
    Option (Except PyErr DramaOutput) :=
  match get_drama_sound_lists resp with
  | .error e => some (.error e)
  | .ok (sound_lists, name, price, view_count, _catalog_name) =>
    match (if sound_lists.isEmpty then some (Except.ok initAgg)
        else aggLoop net fuel (reorder sound_lists) initAgg) with
    | none => none
    | some (.error e) => some (.error e)
    | some (.ok st) => some (.ok (emitOutput drama_id name price view_count st))

/-! ## Derived views used by the theorems -/

/-- The record produced by a successful `process_sound` run (defaulted on
the unused failure branches). -/
def recOf (net : Net) (fuel : Nat) (s : SoundItem) : SoundRecord :=
  match process_sound net fuel s with
  | some (.ok r) => r
  | _ => default

/-- Decidable success of one episode's whole processing: `process_sound`
terminates without an exception and the produced dict has the
`create_time` and a non-`None` `view_count` entry, so the aggregation loop
consumes it without raising. -/
def soundOk (net : Net) (fuel : Nat) (s : SoundItem) : Bool :=
  match process_sound net fuel s with
  | some (.ok r) =>
    match r.detail with
    | some d => d.view_count.isSome
    | none => false
  | _ => false

/-- The `int(sound_detail['view_count'])` value of a record (defaulted on
the branches where the source would instead raise). -/
def vcOf (r : SoundRecord) : Int :=
  match r.detail with
  | some d => d.view_count.getD 0
  | none => 0

/-- The running-minimum update of `first_sound_create_time`
(src lines 137-138). -/
def minStep (m : Option Int) (t : Int) : Option Int :=
  match m with
  | none => some t
  | some m0 => if t < m0 then some t else some m0

/-- The pure state update performed by one loop iteration on a successful
episode (the effect of `aggStep` when `soundOk` holds). -/
def pureStep (net : Net) (fuel : Nat) (st : AggState) (s : SoundItem) : AggState :=
  let r := recOf net fuel s
  let first := minStep st.first_sound_create_time (ctOf r)
  if s.need_pay > 0 then
    { st with
      sound_data := st.sound_data ++ [r],
      total_paid_udis := st.total_paid_udis ∪ r.total_sound_uids,
      total_paid_danmaku_udis := st.total_paid_danmaku_udis ∪ r.danmaku_uids,
      total_paid_comment_uids := st.total_paid_comment_uids ∪ r.comment_uids,
      paid_view_count := st.paid_view_count + vcOf r,
      first_sound_create_time := first }
  else
    { st with
      sound_data := st.sound_data ++ [r],
      total_free_udis := st.total_free_udis ∪ r.total_sound_uids,
      total_free_danmaku_udis := st.total_free_danmaku_udis ∪ r.danmaku_uids,
      total_free_comment_uids := st.total_free_comment_uids ∪ r.comment_uids,
      free_view_count := st.free_view_count + vcOf r,
      first_sound_create_time := first }

/-- The order-insensitive part of the accumulator state: everything except
the completion-ordered `sound_data` list. -/
structure AggCore where
  total_paid_udis : Finset Int
  total_free_udis : Finset Int
  total_paid_danmaku_udis : Finset Int
  total_paid_comment_uids : Finset Int
  total_free_danmaku_udis : Finset Int
  total_free_comment_uids : Finset Int
  paid_view_count : Int
  free_view_count : Int
  first_sound_create_time : Option Int
deriving DecidableEq

/-- Project the accumulator state onto its order-insensitive part. -/
def coreOf (st : AggState) : AggCore :=
  ⟨st.total_paid_udis, st.total_free_udis, st.total_paid_danmaku_udis,
    st.total_paid_comment_uids, st.total_free_danmaku_udis,
    st.total_free_comment_uids, st.paid_view_count, st.free_view_count,
    st.first_sound_create_time⟩

/-- `pureStep` restricted to the order-insensitive part of the state. -/
def coreStep (net : Net) (fuel : Nat) (c : AggCore) (s : SoundItem) : AggCore :=
  let r := recOf net fuel s
  let first := minStep c.first_sound_create_time (ctOf r)
  if s.need_pay > 0 then
    { c with
      total_paid_udis := c.total_paid_udis ∪ r.total_sound_uids,
      total_paid_danmaku_udis := c.total_paid_danmaku_udis ∪ r.danmaku_uids,
      total_paid_comment_uids := c.total_paid_comment_uids ∪ r.comment_uids,
      paid_view_count := c.paid_view_count + vcOf r,
      first_sound_create_time := first }
  else
    { c with
      total_free_udis := c.total_free_udis ∪ r.total_sound_uids,
      total_free_danmaku_udis := c.total_free_danmaku_udis ∪ r.danmaku_uids,
      total_free_comment_uids := c.total_free_comment_uids ∪ r.comment_uids,
      free_view_count := c.free_view_count + vcOf r,
      first_sound_create_time := first }

/-- The final accumulator state of a drama whose episodes all processed
successfully, as a function of the completion order. -/
def runAgg (net : Net) (fuel : Nat) (completed : List SoundItem) : AggState :=
  completed.foldl (pureStep net fuel) initAgg

/-- Decidable success of the detail fetch together with a usable
(`int(...)`-convertible) view count. -/
def detailViewOk (net : Net) (s : SoundItem) : Bool :=
  match get_sound_detail (net.sound s.sound_id) with
  | some d => d.view_count.isSome
  | none => false

/-- Decidable success of the whole threaded-comment pagination for one
episode within the given fuel. -/
def commentsOk (net : Net) (fuel : Nat) (s : SoundItem) : Bool :=
  match fetch_all_uids_by_comments (net.comment s.sound_id) fuel with
  | some (.ok _) => true
  | _ => false

/-- Decidable absence of an uncaught error in the danmaku fetch (a
transport or XML-parse failure still counts as ok: it is absorbed). -/
def dmOk (net : Net) (s : SoundItem) : Bool :=
  match fetch_all_danmakus (net.dm s.sound_id) with
  | .ok _ => true
  | .error _ => false

/-- Field `i` of the comma-separated `p` attribute of one danmaku entry. -/
def dmField (p : String) (i : Nat) : Option String :=
  (splitComma p)[i]?

/-- Well-formedness of one danmaku entry: the type discriminant (field 1)
exists, and when it is not `"4"` the identifier field 6 exists and is
numeric, so the comprehension step does not raise. -/
def dmWF (p : String) : Bool :=
  match dmField p 1 with
  | none => false
  | some f1 =>
    f1 == "4" ||
      (match dmField p 6 with
       | none => false
       | some f6 => (pyInt f6).isSome)

/-- Well-formedness of one threaded-comment page: every key
`extract_user_ids` touches is present. -/
def payloadWF (p : CommentPayload) : Bool :=
  match p.datas with
  | none => false
  | some ds =>
    ds.all (fun c =>
      c.userid.isSome &&
        (match c.subcomments with
         | none => false
         | some subs => subs.all Option.isSome))

/-- The identifiers of one well-formed threaded-comment page: the `userid`
of every top-level comment together with the `userid` of every nested
reply (subcomment). -/
def pageUids (p : CommentPayload) : Finset Int :=
  ((p.datas.getD []).filterMap PyComment.userid).toFinset ∪
    ((p.datas.getD []).map (fun c => (c.subcomments.getD []).filterMap id)).flatten.toFinset

/-! ## Concrete networks and payloads used by witnesses and counterexamples -/

/-- A network where every episode's three fetches succeed: view count 10,
creation time 100, danmaku identifiers `{1}`, threaded identifiers
`{2, 3}` (one top-level comment by user 2 with one reply by user 3). -/
def netHappy : Net :=
  ⟨fun _ => Except.ok ⟨some 10, none, some 0, some 0, some "u", some 100⟩,
   fun _ => Except.ok ["0,1,0,0,0,0,1"],
   fun _ _ => Except.ok ⟨some [⟨some 2, some [some 3]⟩], some false⟩⟩

/-- A drama payload with a single free episode (sound id 7). -/
def payloadOneEp : DramaPayload :=
  ⟨some "D", some 100, some 1000, some "cat", [⟨some 7, some "E1", some 0⟩]⟩

/-- A network where the detail fetch raises a transport error (so
`get_sound_detail` absorbs it into the empty dict) while the other two
fetches succeed. -/
def netDetailFail : Net :=
  ⟨fun _ => Except.error PyErr.transport,
   fun _ => Except.ok [],
   fun _ _ => Except.ok ⟨some [], some false⟩⟩

/-- A network whose threaded-comment page is well-formed JSON but whose
single comment entry lacks the `subcomments` key. -/
def netNoSubcomments : Net :=
  ⟨fun _ => Except.ok ⟨some 10, none, some 0, some 0, some "u", some 100⟩,
   fun _ => Except.ok [],
   fun _ _ => Except.ok ⟨some [⟨some 5, none⟩], some false⟩⟩

/-- The two-episode drama of the concrete aggregation scenario: episode A
(sound id 1) is free, episode B (sound id 2) is paid. -/
def payloadTwoEp : DramaPayload :=
  ⟨some "D", some 100, some 1000, some "cat",
    [⟨some 1, some "A", some 0⟩, ⟨some 2, some "B", some 1⟩]⟩

/-- The network of the concrete aggregation scenario: episode A has view
count 10, danmaku identifiers `{1, 2}` and threaded identifiers `{2, 3}`;
episode B has view count 5, danmaku identifiers `{4}` and no threaded
identifiers. -/
def netScenario : Net :=
  ⟨fun sid => if sid = 1 then Except.ok ⟨some 10, none, some 0, some 0, some "u", some 100⟩
    else Except.ok ⟨some 5, none, some 0, some 0, some "u", some 200⟩,
   fun sid => if sid = 1 then Except.ok ["0,1,0,0,0,0,1", "0,1,0,0,0,0,2"]
    else Except.ok ["0,1,0,0,0,0,4"],
   fun sid _ => if sid = 1 then Except.ok ⟨some [⟨some 2, some []⟩, ⟨some 3, some []⟩], some false⟩
    else Except.ok ⟨some [], some false⟩⟩

/-- A drama payload that is well-formed JSON but whose single episode entry
lacks the `sound_id` and `soundstr` keys. -/
def payloadBadEpisode : DramaPayload :=
  ⟨some "D", some 100, some 1000, some "cat", [⟨none, none, none⟩]⟩

/-- A network where the danmaku fetch of sound 7 raises an XML parse error
while every other fetch succeeds. -/
def netInlineFail : Net :=
  ⟨fun _ => Except.ok ⟨some 10, none, some 0, some 0, some "u", some 100⟩,
   fun sid => if sid = 7 then Except.error PyErr.parse else Except.ok ["0,1,0,0,0,0,1"],
   fun _ _ => Except.ok ⟨some [⟨some 2, some []⟩], some false⟩⟩

/-- A two-episode drama payload (sound ids 7 free and 8 paid). -/
def payloadInline : DramaPayload :=
  ⟨some "D", some 100, some 1000, some "cat",
    [⟨some 7, some "E1", some 0⟩, ⟨some 8, some "E2", some 1⟩]⟩

/-- A two-page threaded-comment server: page 1 (user 1 with a reply by
user 2) reports `hasMore = true`, every later page (user 3, no replies)
reports `hasMore = false`. -/
def pagesW : Nat → Except PyErr CommentPayload := fun pg =>
  if pg = 1 then Except.ok ⟨some [⟨some 1, some [some 2]⟩], some true⟩
  else Except.ok ⟨some [⟨some 3, some []⟩], some false⟩

/-- The parsed payloads behind `pagesW`. -/
def pagesWP : Nat → CommentPayload := fun pg =>
  if pg = 1 then ⟨some [⟨some 1, some [some 2]⟩], some true⟩
  else ⟨some [⟨some 3, some []⟩], some false⟩

/-- The fields of the scenario output that the concrete aggregation claim
constrains. -/
def scenarioView (out : DramaOutput) :
    Int × Int × Nat × Nat × List Nat × List String × List Int :=
  (out.dramaRow.free_view_count, out.dramaRow.paid_view_count,
    out.dramaRow.free_total_size, out.dramaRow.paid_total_size,
    out.soundRows.map SoundRow.total_size,
    out.soundRows.map SoundRow.sound_title,
    out.soundRows.map SoundRow.need_pay)

/-! ## Success-run lemmas -/

theorem soundOk_spec {net : Net} {fuel : Nat} {s : SoundItem} (h : soundOk net fuel s = true) :
    ∃ d, process_sound net fuel s = some (Except.ok (recOf net fuel s)) ∧
      (recOf net fuel s).detail = some d ∧ d.view_count = some (vcOf (recOf net fuel s)) := by
  unfold soundOk at h
  unfold recOf vcOf
  rcases hps : process_sound net fuel s with _ | e | r
  · simp [hps] at h
  · simp [hps] at h
  · simp only [hps] at h ⊢
    rcases hd : r.detail with _ | d
    · simp [hd] at h
    · rcases hv : d.view_count with _ | v
      · simp [hd, hv] at h
      · refine ⟨d, ?_, ?_, ?_⟩ <;> simp [hd, hv]

theorem aggStep_ok {net : Net} {fuel : Nat} {s : SoundItem} (st : AggState)
    (h : soundOk net fuel s = true) :
    aggStep net fuel st s = some (Except.ok (pureStep net fuel st s)) := by
  unfold soundOk at h
  unfold aggStep pureStep recOf ctOf vcOf minStep
  rcases hps : process_sound net fuel s with _ | e | r
  · simp [hps] at h
  · simp [hps] at h
  · rcases hd : r.detail with _ | d
    · simp [hps, hd] at h
    · rcases hv : d.view_count with _ | v
      · simp [hps, hd, hv] at h
      · by_cases hp : s.need_pay > 0 <;> simp [hps, hd, hv, hp]

theorem aggLoop_ok {net : Net} {fuel : Nat} {l : List SoundItem}
    (h : ∀ s ∈ l, soundOk net fuel s = true) (st : AggState) :
    aggLoop net fuel l st = some (Except.ok (l.foldl (pureStep net fuel) st)) := by
  induction l generalizing st with
  | nil => rfl
  | cons s rest ih =>
    rw [aggLoop, aggStep_ok st (h s (by simp))]
    simpa using ih (fun x hx => h x (by simp [hx])) (pureStep net fuel st s)

theorem process_drama_id_ok {drama_id : String} {net : Net} {resp : Except PyErr DramaPayload}
    {reorder : List SoundItem → List SoundItem} {fuel : Nat}
    {sl : List SoundItem} {n p v c : PyVal}
    (hresp : get_drama_sound_lists resp = Except.ok (sl, n, p, v, c))
    (hperm : (reorder sl).Perm sl)
    (hok : ∀ s ∈ sl, soundOk net fuel s = true) :
    process_drama_id drama_id net resp reorder fuel =
      some (Except.ok (emitOutput drama_id n p v (runAgg net fuel (reorder sl)))) := by
  rcases hsl : sl with _ | ⟨s0, rest⟩
  · subst hsl
    have hre : reorder [] = [] := hperm.eq_nil
    simp [process_drama_id, hresp, hre, runAgg, initAgg]
  · subst hsl
    have hloop := @aggLoop_ok net fuel (reorder (s0 :: rest))
      (fun s hs => hok s (hperm.mem_iff.mp hs)) initAgg
    simp [process_drama_id, hresp, hloop, runAgg]

/-- The drama summary row and return value of an empty-episode-list run. -/
theorem process_drama_id_empty {drama_id : String} {net : Net}
    {resp : Except PyErr DramaPayload} {reorder : List SoundItem → List SoundItem}
    {fuel : Nat} {n p v c : PyVal}
    (hresp : get_drama_sound_lists resp = Except.ok ([], n, p, v, c)) :
    process_drama_id drama_id net resp reorder fuel =
      some (Except.ok ⟨[], ⟨drama_id, n, none, p, v, 0, 0, 0, 0, 0, 0, 0, 0⟩, [], ∅⟩) := by
  simp [process_drama_id, hresp, emitOutput, initAgg, sortSounds, rowOf]

/-! ## Order-invariance of the aggregation -/

theorem process_sound_fields {net : Net} {fuel : Nat} {s : SoundItem} {r : SoundRecord}
    (h : process_sound net fuel s = some (Except.ok r)) :
    r.sound_id = s.sound_id ∧ r.sound_title = s.sound_title ∧ r.need_pay = s.need_pay ∧
      r.detail = get_sound_detail (net.sound s.sound_id) ∧
      fetch_all_danmakus (net.dm s.sound_id) = Except.ok r.danmaku_uids ∧
      r.total_sound_uids = r.danmaku_uids ∪ r.comment_uids := by
  unfold process_sound at h
  rcases hdm : fetch_all_danmakus (net.dm s.sound_id) with e | dm
  · simp [hdm] at h
  · rcases hcm : fetch_all_uids_by_comments (net.comment s.sound_id) fuel
      with _ | (ec | ⟨cm, cnt⟩)
    · simp [hdm, hcm] at h
    · simp [hdm, hcm] at h
    · simp only [hdm, hcm, Option.some.injEq, Except.ok.injEq] at h
      subst h
      exact ⟨rfl, rfl, rfl, rfl, rfl, rfl⟩

theorem recOf_sound_id {net : Net} {fuel : Nat} {s : SoundItem}
    (h : soundOk net fuel s = true) :
    (recOf net fuel s).sound_id = s.sound_id := by
  obtain ⟨d, hps, -, -⟩ := soundOk_spec h
  exact (process_sound_fields hps).1

theorem soundOk_of_parts {net : Net} {fuel : Nat} {s : SoundItem}
    (hd : detailViewOk net s = true) (hc : commentsOk net fuel s = true)
    (hm : dmOk net s = true) :
    soundOk net fuel s = true := by
  unfold detailViewOk at hd
  unfold commentsOk at hc
  unfold dmOk at hm
  unfold soundOk process_sound
  rcases hdm : fetch_all_danmakus (net.dm s.sound_id) with e | dm
  · rw [hdm] at hm; simp at hm
  · rcases hcm : fetch_all_uids_by_comments (net.comment s.sound_id) fuel
      with _ | (ec | ⟨cm, cnt⟩)
    · rw [hcm] at hc; simp at hc
    · rw [hcm] at hc; simp at hc
    · simp only [hdm, hcm]
      rcases hgd : get_sound_detail (net.sound s.sound_id) with _ | d
      · rw [hgd] at hd; simp at hd
      · rw [hgd] at hd
        simpa using hd

theorem recOf_danmaku_empty {net : Net} {fuel : Nat} {s : SoundItem} {e : PyErr}
    (he : net.dm s.sound_id = Except.error e) (h : soundOk net fuel s = true) :
    (recOf net fuel s).danmaku_uids = ∅ := by
  obtain ⟨d, hps, -, -⟩ := soundOk_spec h
  have hdm := (process_sound_fields hps).2.2.2.2.1
  rw [he] at hdm
  exact (Except.ok.inj hdm).symm

theorem minStep_eq (m : Option Int) (t : Int) : minStep m t = some (min (m.getD t) t) := by
  rcases m with _ | m0
  · simp [minStep]
  · simp only [minStep, Option.getD_some]
    split_ifs with h
    · rw [min_eq_right (le_of_lt h)]
    · rw [min_eq_left (by omega)]

theorem minStep_comm (m : Option Int) (a b : Int) :
    minStep (minStep m a) b = minStep (minStep m b) a := by
  rcases m with _ | m0
  · simp only [minStep_eq, Option.getD_none, Option.getD_some, min_self]
    rw [min_comm]
  · simp only [minStep_eq, Option.getD_some]
    rw [min_right_comm]

theorem coreOf_pureStep (net : Net) (fuel : Nat) (st : AggState) (s : SoundItem) :
    coreOf (pureStep net fuel st s) = coreStep net fuel (coreOf st) s := by
  unfold coreOf pureStep coreStep
  by_cases hp : s.need_pay > 0 <;> simp [hp]

theorem coreStep_comm (net : Net) (fuel : Nat) (c : AggCore) (a b : SoundItem) :
    coreStep net fuel (coreStep net fuel c a) b = coreStep net fuel (coreStep net fuel c b) a := by
  unfold coreStep
  by_cases ha : a.need_pay > 0 <;> by_cases hb : b.need_pay > 0 <;>
    simp [ha, hb, minStep_comm, Finset.union_comm, Finset.union_left_comm,
      Finset.union_assoc, add_right_comm]

theorem coreOf_foldl (net : Net) (fuel : Nat) (l : List SoundItem) (st : AggState) :
    coreOf (l.foldl (pureStep net fuel) st) = l.foldl (coreStep net fuel) (coreOf st) := by
  induction l generalizing st with
  | nil => rfl
  | cons s rest ih => rw [List.foldl_cons, List.foldl_cons, ih, coreOf_pureStep]

theorem sound_data_pureStep (net : Net) (fuel : Nat) (st : AggState) (s : SoundItem) :
    (pureStep net fuel st s).sound_data = st.sound_data ++ [recOf net fuel s] := by
  unfold pureStep
  by_cases hp : s.need_pay > 0 <;> simp [hp]

theorem sound_data_foldl (net : Net) (fuel : Nat) (l : List SoundItem) (st : AggState) :
    (l.foldl (pureStep net fuel) st).sound_data = st.sound_data ++ l.map (recOf net fuel) := by
  induction l generalizing st with
  | nil => simp
  | cons s rest ih =>
    rw [List.foldl_cons, ih, sound_data_pureStep]
    simp

theorem runAgg_sound_data (net : Net) (fuel : Nat) (l : List SoundItem) :
    (runAgg net fuel l).sound_data = l.map (recOf net fuel) := by
  unfold runAgg initAgg
  rw [sound_data_foldl]
  rfl

theorem runAgg_core_perm (net : Net) (fuel : Nat) {l₁ l₂ : List SoundItem} (hp : l₁.Perm l₂) :
    coreOf (runAgg net fuel l₁) = coreOf (runAgg net fuel l₂) := by
  unfold runAgg
  rw [coreOf_foldl, coreOf_foldl]
  exact hp.foldl_eq' (fun x _ y _ z => coreStep_comm net fuel z x y) (coreOf initAgg)

theorem first_pureStep (net : Net) (fuel : Nat) (st : AggState) (s : SoundItem) :
    (pureStep net fuel st s).first_sound_create_time =
      minStep st.first_sound_create_time (ctOf (recOf net fuel s)) := by
  unfold pureStep
  by_cases hp : s.need_pay > 0 <;> simp [hp]

theorem first_foldl (net : Net) (fuel : Nat) (l : List SoundItem) (st : AggState) :
    (l.foldl (pureStep net fuel) st).first_sound_create_time =
      l.foldl (fun m s => minStep m (ctOf (recOf net fuel s))) st.first_sound_create_time := by
  induction l generalizing st with
  | nil => rfl
  | cons s rest ih => rw [List.foldl_cons, List.foldl_cons, ih, first_pureStep]

theorem minFold_some (ts : List Int) :
    ∀ m0 : Int, ∃ m, ts.foldl minStep (some m0) = some m ∧ (m = m0 ∨ m ∈ ts) ∧
      m ≤ m0 ∧ ∀ t ∈ ts, m ≤ t := by
  induction ts with
  | nil => exact fun m0 => ⟨m0, rfl, Or.inl rfl, le_refl m0, by simp⟩
  | cons t rest ih =>
    intro m0
    obtain ⟨m, hm, hmem, hle, hall⟩ := ih (min m0 t)
    refine ⟨m, ?_, ?_, ?_, ?_⟩
    · rw [List.foldl_cons, minStep_eq, Option.getD_some]
      exact hm
    · rcases hmem with rfl | hmem
      · rcases le_total m0 t with h | h
        · exact Or.inl (min_eq_left h)
        · exact Or.inr (by rw [min_eq_right h]; exact List.mem_cons_self t rest)
      · exact Or.inr (List.mem_cons_of_mem t hmem)
    · exact le_trans hle (min_le_left m0 t)
    · intro u hu
      rcases List.mem_cons.mp hu with rfl | hu2
      · exact le_trans hle (min_le_right m0 u)
      · exact hall u hu2

/-- The strict-sorted view of a key-sorted list whose keys are distinct. -/
theorem sorted_strict_of_nodup {l : List SoundRecord} (hs : List.Sorted recLe l)
    (hnd : (l.map SoundRecord.sound_id).Nodup) : List.Sorted recLt l := by
  have hne : l.Pairwise (fun a b => a.sound_id ≠ b.sound_id) := List.pairwise_map.mp hnd
  exact (hs.and hne).imp (fun h => lt_of_le_of_ne h.1 h.2)

theorem sortSounds_perm (l : List SoundRecord) : (sortSounds l).Perm l :=
  List.perm_insertionSort recLe l

theorem sortSounds_sorted (l : List SoundRecord) : List.Sorted recLe (sortSounds l) :=
  List.sorted_insertionSort recLe l

theorem sortSounds_eq_of_perm {l₁ l₂ : List SoundRecord} (hp : l₁.Perm l₂)
    (hnd : (l₁.map SoundRecord.sound_id).Nodup) :
    sortSounds l₁ = sortSounds l₂ := by
  have hps2 : (sortSounds l₁).Perm (sortSounds l₂) :=
    (sortSounds_perm l₁).trans (hp.trans (sortSounds_perm l₂).symm)
  have hnd1 : ((sortSounds l₁).map SoundRecord.sound_id).Nodup :=
    (((sortSounds_perm l₁).map SoundRecord.sound_id).nodup_iff).mpr hnd
  have hnd2 : ((sortSounds l₂).map SoundRecord.sound_id).Nodup :=
    ((hps2.map SoundRecord.sound_id).nodup_iff).mp hnd1
  exact List.eq_of_perm_of_sorted hps2
    (sorted_strict_of_nodup (sortSounds_sorted l₁) hnd1)
    (sorted_strict_of_nodup (sortSounds_sorted l₂) hnd2)

theorem emitOutput_congr {did : String} {n p v : PyVal} {st1 st2 : AggState}
    (hc : coreOf st1 = coreOf st2)
    (hs : sortSounds st1.sound_data = sortSounds st2.sound_data) :
    emitOutput did n p v st1 = emitOutput did n p v st2 := by
  have e1 : st1.total_paid_udis = st2.total_paid_udis :=
    congrArg AggCore.total_paid_udis hc
  have e2 : st1.total_free_udis = st2.total_free_udis :=
    congrArg AggCore.total_free_udis hc
  have e3 : st1.total_paid_danmaku_udis = st2.total_paid_danmaku_udis :=
    congrArg AggCore.total_paid_danmaku_udis hc
  have e4 : st1.total_paid_comment_uids = st2.total_paid_comment_uids :=
    congrArg AggCore.total_paid_comment_uids hc
  have e5 : st1.total_free_danmaku_udis = st2.total_free_danmaku_udis :=
    congrArg AggCore.total_free_danmaku_udis hc
  have e6 : st1.total_free_comment_uids = st2.total_free_comment_uids :=
    congrArg AggCore.total_free_comment_uids hc
  have e7 : st1.paid_view_count = st2.paid_view_count :=
    congrArg AggCore.paid_view_count hc
  have e8 : st1.free_view_count = st2.free_view_count :=
    congrArg AggCore.free_view_count hc
  have e9 : st1.first_sound_create_time = st2.first_sound_create_time :=
    congrArg AggCore.first_sound_create_time hc
  unfold emitOutput
  rw [hs, e1, e2, e3, e4, e5, e6, e7, e8, e9]

/-! ## Danmaku-filter and pagination lemmas -/

theorem danmakuSet_wf (items : List String) :
    ∀ acc : Finset Int, (∀ p ∈ items, dmWF p = true) →
      ∃ S, danmakuSet items acc = Except.ok S ∧
        ∀ x : Int, x ∈ S ↔ x ∈ acc ∨ ∃ p ∈ items, dmField p 1 ≠ some "4" ∧
          ∃ f6, dmField p 6 = some f6 ∧ pyInt f6 = some x := by
  induction items with
  | nil => exact fun acc _ => ⟨acc, rfl, fun x => by simp⟩
  | cons p rest ih =>
    intro acc hwf
    have hp := hwf p (by simp)
    unfold dmWF at hp
    rcases h1 : dmField p 1 with _ | f1
    · rw [h1] at hp; simp at hp
    · rw [h1] at hp
      by_cases h4 : f1 = "4"
      · subst h4
        have hstep : danmakuStep acc p = Except.ok acc := by
          unfold danmakuStep
          unfold dmField at h1
          simp [h1]
        obtain ⟨S, hS, hmem⟩ := ih acc (fun q hq => hwf q (by simp [hq]))
        refine ⟨S, by rw [danmakuSet, hstep]; exact hS, fun x => ?_⟩
        rw [hmem x]
        constructor
        · rintro (hx | ⟨q, hq, hne, hrest⟩)
          · exact Or.inl hx
          · exact Or.inr ⟨q, by simp [hq], hne, hrest⟩
        · rintro (hx | ⟨q, hq, hne, hrest⟩)
          · exact Or.inl hx
          · rcases List.mem_cons.mp hq with rfl | hq2
            · exact absurd h1 hne
            · exact Or.inr ⟨q, hq2, hne, hrest⟩
      · have hp6 : ∃ f6, dmField p 6 = some f6 ∧ (pyInt f6).isSome := by
          simp [h4] at hp
          rcases h6 : dmField p 6 with _ | f6
          · rw [h6] at hp; simp at hp
          · rw [h6] at hp; exact ⟨f6, rfl, hp⟩
        obtain ⟨f6, h6, hsome⟩ := hp6
        obtain ⟨n, hn⟩ := Option.isSome_iff_exists.mp hsome
        have hstep : danmakuStep acc p = Except.ok (insert n acc) := by
          unfold danmakuStep
          unfold dmField at h1 h6
          simp [h1, h6, h4, hn]
        obtain ⟨S, hS, hmem⟩ := ih (insert n acc) (fun q hq => hwf q (by simp [hq]))
        refine ⟨S, by rw [danmakuSet, hstep]; exact hS, fun x => ?_⟩
        rw [hmem x]
        constructor
        · rintro (hx | ⟨q, hq, hne, hrest⟩)
          · rcases Finset.mem_insert.mp hx with rfl | hacc
            · exact Or.inr ⟨p, by simp, by simp [h1, h4], f6, h6, hn⟩
            · exact Or.inl hacc
          · exact Or.inr ⟨q, by simp [hq], hne, hrest⟩
        · rintro (hx | ⟨q, hq, hne, hrest⟩)
          · exact Or.inl (Finset.mem_insert_of_mem hx)
          · rcases List.mem_cons.mp hq with rfl | hq2
            · obtain ⟨g6, hg6, hgx⟩ := hrest
              rw [h6] at hg6
              obtain rfl := Option.some.inj hg6
              rw [hn] at hgx
              obtain rfl := Option.some.inj hgx
              exact Or.inl (Finset.mem_insert_self n acc)
            · exact Or.inr ⟨q, hq2, hne, hrest⟩

theorem mapM_commentUid_ok (ds : List PyComment) (h : ∀ cm ∈ ds, cm.userid.isSome) :
    ds.mapM commentUid = Except.ok (ds.filterMap PyComment.userid) := by
  induction ds with
  | nil => rfl
  | cons cm rest ih =>
    obtain ⟨u, hu⟩ := Option.isSome_iff_exists.mp (h cm (by simp))
    have hrest := ih (fun q hq => h q (by simp [hq]))
    simp only [List.mapM_cons, hrest, List.filterMap_cons, hu, commentUid]
    rfl

theorem mapM_subUid_ok (subs : List (Option Int)) (h : ∀ s ∈ subs, s.isSome) :
    subs.mapM subUid = Except.ok (subs.filterMap id) := by
  induction subs with
  | nil => rfl
  | cons s rest ih =>
    obtain ⟨u, hu⟩ := Option.isSome_iff_exists.mp (h s (by simp))
    have hrest := ih (fun q hq => h q (by simp [hq]))
    subst hu
    simp only [List.mapM_cons, hrest, List.filterMap_cons, subUid]
    rfl

theorem mapM_commentSubUids_ok (ds : List PyComment)
    (h : ∀ cm ∈ ds, ∃ subs, cm.subcomments = some subs ∧ ∀ s ∈ subs, s.isSome) :
    ds.mapM commentSubUids =
      Except.ok (ds.map (fun cm => (cm.subcomments.getD []).filterMap id)) := by
  induction ds with
  | nil => rfl
  | cons cm rest ih =>
    obtain ⟨subs, hsubs, hall⟩ := h cm (by simp)
    have hrest := ih (fun q hq => h q (by simp [hq]))
    have hcm : commentSubUids cm = Except.ok (subs.filterMap id) := by
      unfold commentSubUids
      rw [hsubs]
      exact mapM_subUid_ok subs hall
    simp only [List.mapM_cons, hrest, List.map_cons, hcm, hsubs, Option.getD_some]
    rfl

theorem extract_user_ids_wf (q : CommentPayload) (h : payloadWF q = true) :
    extract_user_ids q = Except.ok (pageUids q) := by
  unfold payloadWF at h
  rcases hds : q.datas with _ | ds
  · rw [hds] at h; simp at h
  · rw [hds] at h
    rw [List.all_eq_true] at h
    have hboth : ∀ cm ∈ ds, cm.userid.isSome = true ∧
        (match cm.subcomments with
         | none => false
         | some subs => subs.all Option.isSome) = true := by
      intro cm hcm
      have hx := h cm hcm
      rw [Bool.and_eq_true] at hx
      exact hx
    have htop : ∀ cm ∈ ds, cm.userid.isSome := fun cm hcm => (hboth cm hcm).1
    have hsub : ∀ cm ∈ ds, ∃ subs, cm.subcomments = some subs ∧ ∀ s ∈ subs, s.isSome := by
      intro cm hcm
      have hx := (hboth cm hcm).2
      rcases hs : cm.subcomments with _ | subs
      · rw [hs] at hx; simp at hx
      · rw [hs] at hx
        exact ⟨subs, rfl, by simpa using hx⟩
    unfold extract_user_ids pageUids
    simp only [hds, Option.getD_some, mapM_commentUid_ok ds htop,
      mapM_commentSubUids_ok ds hsub]

/-- Membership in the identifier set of one well-formed page: exactly the
top-level comment authors and the nested reply authors. -/
theorem pageUids_mem (q : CommentPayload) (x : Int) :
    x ∈ pageUids q ↔
      ∃ cm ∈ q.datas.getD [], cm.userid = some x ∨ some x ∈ cm.subcomments.getD [] := by
  unfold pageUids
  simp only [Finset.mem_union, List.mem_toFinset, List.mem_filterMap, List.mem_flatten,
    List.mem_map, id]
  constructor
  · rintro (⟨cm, hcm, hu⟩ | ⟨l, ⟨cm, hcm, rfl⟩, hx⟩)
    · exact ⟨cm, hcm, Or.inl hu⟩
    · obtain ⟨o, ho, rfl⟩ := List.mem_filterMap.mp hx
      exact ⟨cm, hcm, Or.inr ho⟩
  · rintro ⟨cm, hcm, hu | hs⟩
    · exact Or.inl ⟨cm, hcm, hu⟩
    · exact Or.inr ⟨(cm.subcomments.getD []).filterMap id, ⟨cm, hcm, rfl⟩,
        List.mem_filterMap.mpr ⟨some x, hs, rfl⟩⟩

theorem union_biUnion_Icc_succ (P : Nat → CommentPayload) (a k : Nat) (acc : Finset Int) :
    (acc ∪ pageUids (P a)) ∪ (Finset.Icc (a + 1) (a + 1 + k)).biUnion (fun i => pageUids (P i)) =
      acc ∪ (Finset.Icc a (a + (k + 1))).biUnion (fun i => pageUids (P i)) := by
  ext x
  simp only [Finset.mem_union, Finset.mem_biUnion, Finset.mem_Icc]
  constructor
  · rintro ((hx | hx) | ⟨i, ⟨h1, h2⟩, hx⟩)
    · exact Or.inl hx
    · exact Or.inr ⟨a, ⟨le_refl a, by omega⟩, hx⟩
    · exact Or.inr ⟨i, ⟨by omega, by omega⟩, hx⟩
  · rintro (hx | ⟨i, ⟨h1, h2⟩, hx⟩)
    · exact Or.inl (Or.inl hx)
    · rcases Nat.eq_or_lt_of_le h1 with rfl | hlt
      · exact Or.inl (Or.inr hx)
      · exact Or.inr ⟨i, ⟨by omega, by omega⟩, hx⟩

theorem fetchUidsGo_run (pages : Nat → Except PyErr CommentPayload) (P : Nat → CommentPayload) :
    ∀ (k start cnt fuel : Nat) (acc : Finset Int),
      (∀ i, start ≤ i → i ≤ start + k → pages i = Except.ok (P i) ∧ payloadWF (P i) = true) →
      (∀ i, start ≤ i → i < start + k → (P i).hasMore = some true) →
      (P (start + k)).hasMore = some false →
      k < fuel →
      fetchUidsGo pages fuel start acc cnt =
        some (Except.ok (acc ∪ (Finset.Icc start (start + k)).biUnion (fun i => pageUids (P i)),
          cnt + (k + 1))) := by
  intro k
  induction k with
  | zero =>
    intro start cnt fuel acc hresp hmore hlast hfuel
    rcases fuel with _ | f
    · omega
    · obtain ⟨hpg, hwf⟩ := hresp start (le_refl start) (by omega)
      rw [fetchUidsGo]
      rw [Nat.add_zero] at hlast
      simp only [hpg, extract_user_ids_wf (P start) hwf, hlast, Nat.add_zero, Nat.zero_add,
        Finset.Icc_self, Finset.singleton_biUnion]
  | succ k ih =>
    intro start cnt fuel acc hresp hmore hlast hfuel
    rcases fuel with _ | f
    · omega
    · obtain ⟨hpg, hwf⟩ := hresp start (le_refl start) (by omega)
      rw [fetchUidsGo]
      have hm := hmore start (le_refl start) (by omega)
      simp only [hpg, extract_user_ids_wf (P start) hwf, hm]
      have hrec := ih (start + 1) (cnt + 1) f (acc ∪ pageUids (P start))
        (fun i hi1 hi2 => hresp i (by omega) (by omega))
        (fun i hi1 hi2 => hmore i (by omega) (by omega))
        (by have : start + 1 + k = start + (k + 1) := by omega
            rw [this]; exact hlast)
        (by omega)
      rw [hrec, union_biUnion_Icc_succ P start k acc]
      have hc : cnt + 1 + (k + 1) = cnt + (k + 1 + 1) := by omega
      rw [hc]

/-! ## Claim theorems -/

/-- C4: when the threaded-comment endpoint answers pages 1..N with
`hasMore = true` and page N+1 with `hasMore = false` (all pages
well-formed), `fetch_all_uids_by_comments` issues exactly N+1 page
requests, starting at page 1, and returns the union over the fetched pages
1..N+1 of each page's identifier set; and one page's identifier set
consists exactly of the `userid` of every top-level comment and of every
nested reply (subcomment). -/
theorem c4_pagination_termination (pages : Nat → Except PyErr CommentPayload)
    (P : Nat → CommentPayload) (N fuel : Nat)
    (hresp : ∀ i, 1 ≤ i → i ≤ N + 1 → pages i = Except.ok (P i) ∧ payloadWF (P i) = true)
    (hmore : ∀ i, 1 ≤ i → i < N + 1 → (P i).hasMore = some true)
    (hlast : (P (N + 1)).hasMore = some false)
    (hfuel : N < fuel) :
    fetch_all_uids_by_comments pages fuel =
        some (Except.ok ((Finset.Icc 1 (N + 1)).biUnion (fun i => pageUids (P i)), N + 1)) ∧
      ∀ (q : CommentPayload) (x : Int), x ∈ pageUids q ↔
        ∃ cm ∈ q.datas.getD [], cm.userid = some x ∨ some x ∈ cm.subcomments.getD [] := by
  constructor
  · have hrun := fetchUidsGo_run pages P N 1 0 fuel ∅
      (fun i h1 h2 => hresp i h1 (by omega))
      (fun i h1 h2 => hmore i h1 (by omega))
      (by have h1N : 1 + N = N + 1 := by omega
          rw [h1N]; exact hlast)
      hfuel
    unfold fetch_all_uids_by_comments
    rw [hrun]
    have h1N : 1 + N = N + 1 := by omega
    rw [h1N]
    simp
  · exact pageUids_mem

/-- Witness for `c4_pagination_termination`: a server with one
`hasMore = true` page and one final page (N = 1), fetched with fuel 3. -/
theorem c4_pagination_termination_witness :
    fetch_all_uids_by_comments pagesW 3 =
        some (Except.ok ((Finset.Icc 1 2).biUnion (fun i => pageUids (pagesWP i)), 2)) ∧
      ∀ (q : CommentPayload) (x : Int), x ∈ pageUids q ↔
        ∃ cm ∈ q.datas.getD [], cm.userid = some x ∨ some x ∈ cm.subcomments.getD [] :=
  c4_pagination_termination pagesW pagesWP 1 3
    (by intro i h1 h2; interval_cases i <;> exact ⟨rfl, by decide⟩)
    (by intro i h1 h2; interval_cases i; exact rfl)
    rfl
    (by decide)

/-- C5: on a danmaku payload of well-formed entries,
`fetch_all_danmakus` returns exactly the identifiers (field 6 of the
comma-separated `p` attribute) of the entries whose type discriminant
(field 1) differs from `"4"`: type-`"4"` entries are excluded and every
other entry's identifier is included. -/
theorem c5_danmaku_filtering (items : List String) (hwf : ∀ p ∈ items, dmWF p = true) :
    ∃ S, fetch_all_danmakus (Except.ok items) = Except.ok S ∧
      ∀ x : Int, x ∈ S ↔ ∃ p ∈ items, dmField p 1 ≠ some "4" ∧
        ∃ f6, dmField p 6 = some f6 ∧ pyInt f6 = some x := by
  obtain ⟨S, hS, hmem⟩ := danmakuSet_wf items ∅ hwf
  refine ⟨S, hS, fun x => ?_⟩
  rw [hmem x]
  simp

/-- Witness for `c5_danmaku_filtering`: one type-`"4"` entry (identifier 9,
excluded) and one type-`"1"` entry (identifier 5, included). -/
theorem c5_danmaku_filtering_witness :
    ∃ S, fetch_all_danmakus (Except.ok ["0,4,0,0,0,0,9", "0,1,0,0,0,0,5"]) = Except.ok S ∧
      ∀ x : Int, x ∈ S ↔ ∃ p ∈ ["0,4,0,0,0,0,9", "0,1,0,0,0,0,5"], dmField p 1 ≠ some "4" ∧
        ∃ f6, dmField p 6 = some f6 ∧ pyInt f6 = some x :=
  c5_danmaku_filtering ["0,4,0,0,0,0,9", "0,1,0,0,0,0,5"] (by decide)

/-- C2: for every episode record produced by `process_sound`, the combined
identifier set equals the union of the inline (danmaku) set and the
threaded (comment) set; hence its size equals the union's size, is at
least the maximum of the two sizes, and is at most their sum. -/
theorem c2_union_correct (net : Net) (fuel : Nat) (sound : SoundItem) (r : SoundRecord)
    (h : process_sound net fuel sound = some (Except.ok r)) :
    r.total_sound_uids = r.danmaku_uids ∪ r.comment_uids ∧
      r.total_sound_uids.card = (r.danmaku_uids ∪ r.comment_uids).card ∧
      max r.danmaku_uids.card r.comment_uids.card ≤ r.total_sound_uids.card ∧
      r.total_sound_uids.card ≤ r.danmaku_uids.card + r.comment_uids.card := by
  unfold process_sound at h
  rcases hdm : fetch_all_danmakus (net.dm sound.sound_id) with e | dm
  · simp [hdm] at h
  · rcases hcm : fetch_all_uids_by_comments (net.comment sound.sound_id) fuel
      with _ | (ec | ⟨cm, cnt⟩)
    · simp [hdm, hcm] at h
    · simp [hdm, hcm] at h
    · simp only [hdm, hcm, Option.some.injEq, Except.ok.injEq] at h
      subst h
      refine ⟨rfl, rfl, ?_, ?_⟩
      · exact max_le (Finset.card_le_card Finset.subset_union_left)
          (Finset.card_le_card Finset.subset_union_right)
      · exact Finset.card_union_le _ _

/-- Witness for `c2_union_correct` at a concrete episode of `netHappy`. -/
theorem c2_union_correct_witness :
    (recOf netHappy 2 ⟨1, "A", 0⟩).total_sound_uids =
        (recOf netHappy 2 ⟨1, "A", 0⟩).danmaku_uids ∪ (recOf netHappy 2 ⟨1, "A", 0⟩).comment_uids ∧
      (recOf netHappy 2 ⟨1, "A", 0⟩).total_sound_uids.card =
        ((recOf netHappy 2 ⟨1, "A", 0⟩).danmaku_uids ∪ (recOf netHappy 2 ⟨1, "A", 0⟩).comment_uids).card ∧
      max (recOf netHappy 2 ⟨1, "A", 0⟩).danmaku_uids.card (recOf netHappy 2 ⟨1, "A", 0⟩).comment_uids.card ≤
        (recOf netHappy 2 ⟨1, "A", 0⟩).total_sound_uids.card ∧
      (recOf netHappy 2 ⟨1, "A", 0⟩).total_sound_uids.card ≤
        (recOf netHappy 2 ⟨1, "A", 0⟩).danmaku_uids.card + (recOf netHappy 2 ⟨1, "A", 0⟩).comment_uids.card :=
  c2_union_correct netHappy 2 ⟨1, "A", 0⟩ (recOf netHappy 2 ⟨1, "A", 0⟩) rfl

/-- C9: when the episode-list fetch yields an empty list (for example after
a transport error), `process_drama_id` still emits exactly one drama
summary row with zero/default aggregates (zero view-count sums, size-zero
identifier sets, no earliest timestamp), emits no episode rows, and
returns normally, so the run proceeds to the next drama identifier. -/
theorem c9_empty_list_default_row (drama_id : String) (net : Net)
    (resp : Except PyErr DramaPayload) (reorder : List SoundItem → List SoundItem)
    (fuel : Nat) (n p v c : PyVal)
    (hresp : get_drama_sound_lists resp = Except.ok ([], n, p, v, c)) :
    process_drama_id drama_id net resp reorder fuel =
      some (Except.ok ⟨[], ⟨drama_id, n, none, p, v, 0, 0, 0, 0, 0, 0, 0, 0⟩, [], ∅⟩) :=
  process_drama_id_empty hresp

/-- Witness for `c9_empty_list_default_row`: a transport failure of the
episode-list fetch. -/
theorem c9_empty_list_default_row_witness :
    process_drama_id "62452" netHappy (Except.error PyErr.transport) id 1 =
      some (Except.ok ⟨[],
        ⟨"62452", PyVal.vStr "", none, PyVal.vStr "", PyVal.vStr "", 0, 0, 0, 0, 0, 0, 0, 0⟩,
        [], ∅⟩) :=
  c9_empty_list_default_row "62452" netHappy (Except.error PyErr.transport) id 1
    (PyVal.vStr "") (PyVal.vStr "") (PyVal.vStr "") (PyVal.vStr "") rfl

/-- C10: a threaded-comment page that is well-formed JSON but whose comment
entry lacks the `subcomments` key makes `fetch_all_uids_by_comments` raise
`KeyError`; the exception propagates through `process_sound` and the
future join in `process_drama_id`, so the whole drama's aggregation aborts
with that exception instead of producing any rows. -/
theorem c10_pagination_parse_failure_aborts :
    fetch_all_uids_by_comments (netNoSubcomments.comment 7) 5 =
        some (Except.error PyErr.keyError) ∧
      process_sound netNoSubcomments 5 ⟨7, "E1", 0⟩ = some (Except.error PyErr.keyError) ∧
      process_drama_id "62452" netNoSubcomments (Except.ok payloadOneEp) id 5 =
        some (Except.error PyErr.keyError) :=
  ⟨rfl, rfl, rfl⟩

/-- Counterexample to C1 as stated: with one episode whose detail fetch
raises a transport error (absorbed by `get_sound_detail` into an empty
dict) while the inline and threaded fetches succeed, `process_drama_id`
raises `KeyError` at the `sound_detail['create_time']` access (src lines
137-138) and emits no drama summary row at all. -/
theorem c1_counterexample :
    process_drama_id "62452" netDetailFail (Except.ok payloadOneEp) id 5 =
      some (Except.error PyErr.keyError) :=
  rfl

/-- Counterexample to C6 as stated: a well-formed (parsed) payload whose
episode entry lacks the `sound_id`/`soundstr` keys makes
`get_drama_sound_lists` raise an uncaught `KeyError` instead of returning
an empty list with default fields. -/
theorem c6_counterexample :
    get_drama_sound_lists (Except.ok payloadBadEpisode) = Except.error PyErr.keyError :=
  rfl

/-- C6 as amended: every error raised by the request itself or by JSON
decoding (a `requests.RequestException`) is absorbed into an empty episode
list with empty-string scalar fields, but a decodable payload whose
episode entry lacks the `sound_id`/`soundstr` keys raises an uncaught
`KeyError`. -/
theorem c6_amended :
    (∀ e : PyErr, get_drama_sound_lists (Except.error e) =
        Except.ok ([], PyVal.vStr "", PyVal.vStr "", PyVal.vStr "", PyVal.vStr "")) ∧
      get_drama_sound_lists (Except.ok payloadBadEpisode) = Except.error PyErr.keyError :=
  ⟨fun _ => rfl, rfl⟩

/-- C8: the concrete two-episode scenario.  Episode A (free, view count 10,
inline `{1, 2}`, threaded `{2, 3}`) and episode B (paid, view count 5,
inline `{4}`, threaded `∅`) yield a drama summary with free view-count sum
10, paid view-count sum 5, free union size 3 and paid union size 1, and
the emitted episode row for A (first, by ascending sound id) has combined
size 3. -/
theorem c8_concrete_scenario :
    (process_drama_id "62452" netScenario (Except.ok payloadTwoEp) id 5).map
        (Except.map scenarioView) =
      some (Except.ok (10, 5, 3, 1, [3, 1], ["A", "B"], [0, 1])) :=
  rfl

/-- C3: for every drama whose episodes all process successfully and whose
episode identifiers are pairwise distinct, and for every two completion
orders (permutations in which the concurrent per-episode futures finish),
`process_drama_id` produces identical output, and the emitted episode
record list (whose image under `rowOf` is exactly the emitted row
sequence) is sorted by strictly ascending episode identifier. -/
theorem c3_order_independent_sorted (drama_id : String) (net : Net)
    (resp : Except PyErr DramaPayload) (fuel : Nat)
    (r1 r2 : List SoundItem → List SoundItem) (sl : List SoundItem) (n p v c : PyVal)
    (hresp : get_drama_sound_lists resp = Except.ok (sl, n, p, v, c))
    (h1 : (r1 sl).Perm sl) (h2 : (r2 sl).Perm sl)
    (hok : ∀ s ∈ sl, soundOk net fuel s = true)
    (hnd : (sl.map SoundItem.sound_id).Nodup) :
    process_drama_id drama_id net resp r1 fuel = process_drama_id drama_id net resp r2 fuel ∧
      ∃ out, process_drama_id drama_id net resp r1 fuel = some (Except.ok out) ∧
        List.Sorted recLt out.sound_data ∧ out.soundRows = out.sound_data.map rowOf := by
  have hout1 := @process_drama_id_ok drama_id net resp r1 fuel sl n p v c hresp h1 hok
  have hout2 := @process_drama_id_ok drama_id net resp r2 fuel sl n p v c hresp h2 hok
  have hid1 : ((r1 sl).map (recOf net fuel)).map SoundRecord.sound_id =
      (r1 sl).map SoundItem.sound_id := by
    rw [List.map_map]
    exact List.map_congr_left (fun s hs => recOf_sound_id (hok s (h1.mem_iff.mp hs)))
  have hnd1 : (((r1 sl).map (recOf net fuel)).map SoundRecord.sound_id).Nodup := by
    rw [hid1]
    exact ((h1.map SoundItem.sound_id).nodup_iff).mpr hnd
  have hperm12 : ((r1 sl).map (recOf net fuel)).Perm ((r2 sl).map (recOf net fuel)) :=
    (h1.trans h2.symm).map (recOf net fuel)
  have hsorteq : sortSounds ((runAgg net fuel (r1 sl)).sound_data) =
      sortSounds ((runAgg net fuel (r2 sl)).sound_data) := by
    rw [runAgg_sound_data, runAgg_sound_data]
    exact sortSounds_eq_of_perm hperm12 hnd1
  have hcore : coreOf (runAgg net fuel (r1 sl)) = coreOf (runAgg net fuel (r2 sl)) :=
    runAgg_core_perm net fuel (h1.trans h2.symm)
  refine ⟨?_, ?_⟩
  · rw [hout1, hout2, emitOutput_congr hcore hsorteq]
  · refine ⟨_, hout1, ?_, rfl⟩
    show List.Sorted recLt (sortSounds ((runAgg net fuel (r1 sl)).sound_data))
    have hnds : ((sortSounds ((runAgg net fuel (r1 sl)).sound_data)).map
        SoundRecord.sound_id).Nodup := by
      rw [runAgg_sound_data]
      exact (((sortSounds_perm ((r1 sl).map (recOf net fuel))).map
        SoundRecord.sound_id).nodup_iff).mpr hnd1
    exact sorted_strict_of_nodup (sortSounds_sorted _) hnds

/-- Witness for `c3_order_independent_sorted`: the two-episode scenario
drama under the identity completion order and the reversed completion
order. -/
theorem c3_order_independent_sorted_witness :
    process_drama_id "62452" netScenario (Except.ok payloadTwoEp) id 5 =
        process_drama_id "62452" netScenario (Except.ok payloadTwoEp) List.reverse 5 ∧
      ∃ out, process_drama_id "62452" netScenario (Except.ok payloadTwoEp) id 5 =
          some (Except.ok out) ∧
        List.Sorted recLt out.sound_data ∧ out.soundRows = out.sound_data.map rowOf :=
  c3_order_independent_sorted "62452" netScenario (Except.ok payloadTwoEp) 5 id List.reverse
    [⟨1, "A", 0⟩, ⟨2, "B", 1⟩] (PyVal.vStr "D") (PyVal.vInt 100) (PyVal.vInt 1000)
    (PyVal.vStr "cat") rfl (List.Perm.refl _) (List.reverse_perm _) (by decide) (by decide)

/-- C7: for every drama with a nonempty, all-successful episode set, the
earliest-creation-timestamp field of the drama summary row is the minimum
of the raw `create_time` values of all the drama's episode records, across
both partitions, each compared unconditionally (a defaulted epoch value
included like any other). -/
theorem c7_earliest_create_time (drama_id : String) (net : Net)
    (resp : Except PyErr DramaPayload) (reorder : List SoundItem → List SoundItem)
    (fuel : Nat) (sl : List SoundItem) (n p v c : PyVal)
    (hresp : get_drama_sound_lists resp = Except.ok (sl, n, p, v, c))
    (hperm : (reorder sl).Perm sl)
    (hok : ∀ s ∈ sl, soundOk net fuel s = true)
    (hne : sl ≠ []) :
    ∃ out m, process_drama_id drama_id net resp reorder fuel = some (Except.ok out) ∧
      out.dramaRow.first_sound_create_time = some m ∧
      m ∈ out.sound_data.map ctOf ∧ ∀ t ∈ out.sound_data.map ctOf, m ≤ t := by
  have hout := @process_drama_id_ok drama_id net resp reorder fuel sl n p v c hresp hperm hok
  have hfirst : (runAgg net fuel (reorder sl)).first_sound_create_time =
      ((reorder sl).map (fun s => ctOf (recOf net fuel s))).foldl minStep none := by
    unfold runAgg
    rw [first_foldl, List.foldl_map]
    rfl
  have hmapct : (runAgg net fuel (reorder sl)).sound_data.map ctOf =
      (reorder sl).map (fun s => ctOf (recOf net fuel s)) := by
    rw [runAgg_sound_data, List.map_map]
    rfl
  rcases hro : reorder sl with _ | ⟨s0, rest⟩
  · rw [hro] at hperm
    exact absurd hperm.symm.eq_nil hne
  · obtain ⟨m, hm, hmem, hle, hall⟩ :=
      minFold_some (rest.map (fun s => ctOf (recOf net fuel s))) (ctOf (recOf net fuel s0))
    rw [hro] at hfirst hmapct
    simp only [List.map_cons, List.foldl_cons, minStep] at hfirst
    rw [hm] at hfirst
    have hpermct : ((sortSounds ((runAgg net fuel (reorder sl)).sound_data)).map ctOf).Perm
        ((runAgg net fuel (reorder sl)).sound_data.map ctOf) :=
      (sortSounds_perm _).map ctOf
    have hmemL : m ∈ (runAgg net fuel (reorder sl)).sound_data.map ctOf := by
      rw [hro, hmapct, List.map_cons]
      rcases hmem with rfl | hmem2
      · exact List.mem_cons_self _ _
      · exact List.mem_cons_of_mem _ hmem2
    have hallL : ∀ t ∈ (runAgg net fuel (reorder sl)).sound_data.map ctOf, m ≤ t := by
      rw [hro, hmapct, List.map_cons]
      intro t ht
      rcases List.mem_cons.mp ht with rfl | ht2
      · exact hle
      · exact hall t ht2
    refine ⟨emitOutput drama_id n p v (runAgg net fuel (reorder sl)), m, hout, ?_, ?_, ?_⟩
    · show (runAgg net fuel (reorder sl)).first_sound_create_time = some m
      rw [hro]
      exact hfirst
    · show m ∈ (sortSounds ((runAgg net fuel (reorder sl)).sound_data)).map ctOf
      exact hpermct.mem_iff.mpr hmemL
    · show ∀ t ∈ (sortSounds ((runAgg net fuel (reorder sl)).sound_data)).map ctOf, m ≤ t
      exact fun t ht => hallL t (hpermct.mem_iff.mp ht)

/-- Witness for `c7_earliest_create_time`: the two-episode scenario drama
(creation times 100 and 200). -/
theorem c7_earliest_create_time_witness :
    ∃ out m, process_drama_id "62452" netScenario (Except.ok payloadTwoEp) id 5 =
        some (Except.ok out) ∧
      out.dramaRow.first_sound_create_time = some m ∧
      m ∈ out.sound_data.map ctOf ∧ ∀ t ∈ out.sound_data.map ctOf, m ≤ t :=
  c7_earliest_create_time "62452" netScenario (Except.ok payloadTwoEp) id 5
    [⟨1, "A", 0⟩, ⟨2, "B", 1⟩] (PyVal.vStr "D") (PyVal.vInt 100) (PyVal.vInt 1000)
    (PyVal.vStr "cat") rfl (List.Perm.refl _) (by decide) (by decide)

/-- C1 as amended: a transport or parse failure of an episode's
inline-comment (danmaku) sub-fetch is absorbed at the call site into the
empty set — when every episode's detail and threaded-comment fetches
succeed, the drama still completes, its summary row is emitted, and the
affected episode's record carries an empty inline-identifier set.  (By
contrast, `c1_counterexample` shows a detail-fetch failure aborting the
drama, and C10 shows a threaded-comment failure doing the same.) -/
theorem c1_amended_inline_absorbed (drama_id : String) (net : Net)
    (resp : Except PyErr DramaPayload) (reorder : List SoundItem → List SoundItem)
    (fuel : Nat) (sl : List SoundItem) (n p v c : PyVal) (s0 : SoundItem) (e : PyErr)
    (hresp : get_drama_sound_lists resp = Except.ok (sl, n, p, v, c))
    (hperm : (reorder sl).Perm sl)
    (hdet : ∀ s ∈ sl, detailViewOk net s = true)
    (hcom : ∀ s ∈ sl, commentsOk net fuel s = true)
    (hdm : ∀ s ∈ sl, dmOk net s = true)
    (hs0 : s0 ∈ sl) (he : net.dm s0.sound_id = Except.error e) :
    fetch_all_danmakus (net.dm s0.sound_id) = Except.ok ∅ ∧
      ∃ out, process_drama_id drama_id net resp reorder fuel = some (Except.ok out) ∧
        ∃ r ∈ out.sound_data, r.sound_id = s0.sound_id ∧ r.danmaku_uids = ∅ := by
  have hok : ∀ s ∈ sl, soundOk net fuel s = true :=
    fun s hs => soundOk_of_parts (hdet s hs) (hcom s hs) (hdm s hs)
  have hout := @process_drama_id_ok drama_id net resp reorder fuel sl n p v c hresp hperm hok
  refine ⟨by rw [he]; rfl, emitOutput drama_id n p v (runAgg net fuel (reorder sl)), hout, ?_⟩
  refine ⟨recOf net fuel s0, ?_, recOf_sound_id (hok s0 hs0), ?_⟩
  · show recOf net fuel s0 ∈ sortSounds ((runAgg net fuel (reorder sl)).sound_data)
    rw [runAgg_sound_data]
    exact (sortSounds_perm _).mem_iff.mpr
      (List.mem_map_of_mem (recOf net fuel) (hperm.mem_iff.mpr hs0))
  · exact recOf_danmaku_empty he (hok s0 hs0)

/-- Witness for `c1_amended_inline_absorbed`: a two-episode drama whose
first episode's danmaku fetch raises a parse error. -/
theorem c1_amended_inline_absorbed_witness :
    fetch_all_danmakus (netInlineFail.dm 7) = Except.ok ∅ ∧
      ∃ out, process_drama_id "62452" netInlineFail (Except.ok payloadInline) id 3 =
          some (Except.ok out) ∧
        ∃ r ∈ out.sound_data, r.sound_id = 7 ∧ r.danmaku_uids = ∅ :=
  c1_amended_inline_absorbed "62452" netInlineFail (Except.ok payloadInline) id 3
    [⟨7, "E1", 0⟩, ⟨8, "E2", 1⟩] (PyVal.vStr "D") (PyVal.vInt 100) (PyVal.vInt 1000)
    (PyVal.vStr "cat") ⟨7, "E1", 0⟩ PyErr.parse rfl (List.Perm.refl _)
    (by decide) (by decide) (by decide) (by decide) rfl

end MaoerCsv
